import Mathlib

/-!
Verification development for the HOME-GARAGE server (src/server.ts).

The server persists "motorcycle build" records in a SQLite table
(better-sqlite3) and ingests images.  This file gives a shallow embedding
of the data model and of the five record routes plus the upload route, and
proves the claimed properties about them.

Modelling conventions, faithful to the source:
* Client JSON values are `JVal` (absent properties are `JVal.undef`; JSON
  numbers are modelled as integers — no floating point appears in any claim).
* SQLite storage values are `SqlVal`.
* better-sqlite3 rejects `undefined` bindings with a TypeError (only
  null/number/string/bigint/buffer are bindable), so binding is
  `bindJ : JVal -> Option SqlVal` with `none` for the thrown TypeError.
* Accessing `bike.specs.engine` when `bike.specs` is absent throws a
  TypeError in JS; both this throw and a binding throw are caught by the
  route's try/catch and surface as a 500, so both are `none` in `bindBike`.
* SQLite column affinity is applied to bound values: TEXT affinity for all
  columns except `year` (INTEGER affinity), per the CREATE TABLE statement.
* `created_at DATETIME DEFAULT CURRENT_TIMESTAMP` is modelled as a natural
  number supplied to the insert (`now`), since it is environmental.
-/

namespace HomeGarage

/-- A client-side JSON value as the route handlers see it.  `undef` is an
absent object property (JS `undefined`), distinct from JSON `null`. -/
inductive JVal where
  | undef
  | null
  | str (s : String)
  | int (n : Int)
deriving DecidableEq, Repr

/-- A SQLite storage value for the motorcycles table's columns. -/
inductive SqlVal where
  | null
  | text (s : String)
  | int (n : Int)
deriving DecidableEq, Repr

/-- better-sqlite3 parameter binding: `null` binds as SQL NULL, strings and
numbers bind as themselves, and `undefined` throws a TypeError (`none`). -/
def bindJ : JVal → Option SqlVal
  | .undef => none
  | .null => some .null
  | .str s => some (.text s)
  | .int n => some (.int n)

/-- SQLite TEXT affinity: numeric values are converted to their text
representation; text and NULL are stored as supplied. -/
def textAffinity : SqlVal → SqlVal
  | .int n => .text (toString n)
  | v => v

/-- SQLite INTEGER affinity: text that reads as an integer is converted;
other values are stored as supplied. -/
def intAffinity : SqlVal → SqlVal
  | .text s =>
      match s.toInt? with
      | some n => .int n
      | none => .text s
  | v => v

/-- The nested `specs` sub-object of a request body
(server.ts lines 133-143: engine, power, torque, weight, topSpeed). -/
structure SpecsIn where
  engine : JVal
  power : JVal
  torque : JVal
  weight : JVal
  topSpeed : JVal
deriving DecidableEq, Repr

/-- A request body for create/update: the nested client shape.  `specs` is
`none` when the property is absent from the JSON body. -/
structure Bike where
  id : JVal
  name : JVal
  category : JVal
  year : JVal
  description : JVal
  modifications : JVal
  image : JVal
  specs : Option SpecsIn
deriving DecidableEq, Repr

/-- One row of the `motorcycles` table (CREATE TABLE, server.ts lines 38-55):
twelve value columns plus the server-assigned `created_at`. -/
structure Row where
  id : SqlVal
  name : SqlVal
  category : SqlVal
  year : SqlVal
  description : SqlVal
  modifications : SqlVal
  image : SqlVal
  engine : SqlVal
  power : SqlVal
  torque : SqlVal
  weight : SqlVal
  topSpeed : SqlVal
  created_at : Nat
deriving DecidableEq, Repr

/-- The table contents, in insertion order. -/
abbrev Store := List Row

/-- The twelve values bound by the INSERT statement
(server.ts lines 126-143). -/
structure FlatVals where
  id : SqlVal
  name : SqlVal
  category : SqlVal
  year : SqlVal
  description : SqlVal
  modifications : SqlVal
  image : SqlVal
  engine : SqlVal
  power : SqlVal
  torque : SqlVal
  weight : SqlVal
  topSpeed : SqlVal
deriving DecidableEq, Repr

/-- Evaluate and bind the twelve INSERT arguments
(`bike.id, ..., bike.specs.topSpeed`, server.ts lines 131-143).
`none` models the thrown TypeError — either from dereferencing
`bike.specs.*` when `specs` is absent, or from better-sqlite3 refusing an
`undefined` binding; the route's catch turns either into a 500. -/
def bindBike (b : Bike) : Option FlatVals := do
  let sp ← b.specs
  let idv ← bindJ b.id
  let namev ← bindJ b.name
  let catv ← bindJ b.category
  let yearv ← bindJ b.year
  let descv ← bindJ b.description
  let modsv ← bindJ b.modifications
  let imgv ← bindJ b.image
  let engv ← bindJ sp.engine
  let powv ← bindJ sp.power
  let torv ← bindJ sp.torque
  let wtv ← bindJ sp.weight
  let tsv ← bindJ sp.topSpeed
  pure ⟨idv, namev, catv, yearv, descv, modsv, imgv, engv, powv, torv, wtv, tsv⟩

/-- Column affinity for the twelve INSERT columns: TEXT affinity everywhere
except the `year INTEGER` column. -/
def applyAffinity (v : FlatVals) : FlatVals :=
  ⟨textAffinity v.id, textAffinity v.name, textAffinity v.category,
   intAffinity v.year, textAffinity v.description, textAffinity v.modifications,
   textAffinity v.image, textAffinity v.engine, textAffinity v.power,
   textAffinity v.torque, textAffinity v.weight, textAffinity v.topSpeed⟩

/-- SQLite errors the statements can raise.  The schema declares
`name`, `category`, `year` NOT NULL and `id TEXT PRIMARY KEY`
(a non-INTEGER primary key in SQLite does not imply NOT NULL). -/
inductive SqlErr where
  | notNullViolation
  | primaryKeyViolation
deriving DecidableEq, Repr

/-- Build the inserted row from the bound values and the server clock. -/
def rowOf (v : FlatVals) (now : Nat) : Row :=
  ⟨v.id, v.name, v.category, v.year, v.description, v.modifications, v.image,
   v.engine, v.power, v.torque, v.weight, v.topSpeed, now⟩

/-- Execute the INSERT: apply affinity, enforce the NOT NULL constraints on
`name`, `category`, `year`, enforce the PRIMARY KEY uniqueness of `id`
(NULL ids are exempt, as in SQLite), then append the new row.  A failed
statement leaves the table untouched. -/
def insertRow (st : Store) (now : Nat) (v0 : FlatVals) : Except SqlErr Store :=
  let v := applyAffinity v0
  if v.name = SqlVal.null ∨ v.category = SqlVal.null ∨ v.year = SqlVal.null then
    .error .notNullViolation
  else if v.id ≠ SqlVal.null ∧ st.any (fun r => decide (r.id = v.id)) = true then
    .error .primaryKeyViolation
  else
    .ok (st ++ [rowOf v now])

/-- Outcome of POST /api/motorcycles: 201 echoing the request body, or the
catch-all 500 from the route's try/catch (server.ts lines 123-148). -/
inductive CreateResult where
  | created (b : Bike)
  | serverError
deriving DecidableEq, Repr

/-- POST /api/motorcycles (server.ts lines 123-148): evaluate and bind the
twelve arguments, run the INSERT, echo the body with 201 on success; any
thrown error is caught and becomes a 500 with the table unchanged. -/
def postMotorcycle (st : Store) (now : Nat) (b : Bike) : CreateResult × Store :=
  match bindBike b with
  | none => (.serverError, st)
  | some v =>
    match insertRow st now v with
    | .error _ => (.serverError, st)
    | .ok st2 => (.created b, st2)

/-- The eleven values bound by the UPDATE statement
(server.ts lines 154-173; `id` comes from the URL, `created_at` is not set). -/
structure UpdVals where
  name : SqlVal
  category : SqlVal
  year : SqlVal
  description : SqlVal
  modifications : SqlVal
  image : SqlVal
  engine : SqlVal
  power : SqlVal
  torque : SqlVal
  weight : SqlVal
  topSpeed : SqlVal
deriving DecidableEq, Repr

/-- Evaluate and bind the eleven UPDATE arguments (server.ts lines 161-173);
`none` models the same thrown TypeErrors as in `bindBike`. -/
def bindBikeUpdate (b : Bike) : Option UpdVals := do
  let sp ← b.specs
  let namev ← bindJ b.name
  let catv ← bindJ b.category
  let yearv ← bindJ b.year
  let descv ← bindJ b.description
  let modsv ← bindJ b.modifications
  let imgv ← bindJ b.image
  let engv ← bindJ sp.engine
  let powv ← bindJ sp.power
  let torv ← bindJ sp.torque
  let wtv ← bindJ sp.weight
  let tsv ← bindJ sp.topSpeed
  pure ⟨namev, catv, yearv, descv, modsv, imgv, engv, powv, torv, wtv, tsv⟩

/-- Column affinity for the eleven UPDATE columns. -/
def applyAffinityU (v : UpdVals) : UpdVals :=
  ⟨textAffinity v.name, textAffinity v.category, intAffinity v.year,
   textAffinity v.description, textAffinity v.modifications, textAffinity v.image,
   textAffinity v.engine, textAffinity v.power, textAffinity v.torque,
   textAffinity v.weight, textAffinity v.topSpeed⟩

/-- The WHERE id = ? test: the URL parameter binds as text and is compared
with the stored `id` column. -/
def rowMatches (idp : String) (r : Row) : Bool :=
  decide (r.id = SqlVal.text idp)

/-- Overwrite the eleven SET columns of one row; `id` and `created_at` are
not in the SET clause and keep their values. -/
def applyUpdate (v : UpdVals) (r : Row) : Row :=
  { r with
    name := v.name, category := v.category, year := v.year,
    description := v.description, modifications := v.modifications,
    image := v.image, engine := v.engine, power := v.power,
    torque := v.torque, weight := v.weight, topSpeed := v.topSpeed }

/-- Execute the UPDATE: apply affinity, fail the whole (atomic) statement if
a matched row would violate a NOT NULL constraint, otherwise overwrite every
matching row and report the number of changed rows (`result.changes`). -/
def runUpdate (st : Store) (idp : String) (v0 : UpdVals) :
    Except SqlErr (Store × Nat) :=
  let v := applyAffinityU v0
  if (v.name = SqlVal.null ∨ v.category = SqlVal.null ∨ v.year = SqlVal.null) ∧
      st.any (rowMatches idp) = true then
    .error .notNullViolation
  else
    .ok (st.map (fun r => if rowMatches idp r then applyUpdate v r else r),
         (st.filter (rowMatches idp)).length)

/-- Outcome of PUT /api/motorcycles/:id: 200 echoing the request body, or
the catch-all 500.  The handler never inspects `result.changes`, so there is
no not-found outcome. -/
inductive UpdateResult where
  | okEcho (b : Bike)
  | serverError
deriving DecidableEq, Repr

/-- PUT /api/motorcycles/:id (server.ts lines 150-178): bind the eleven
arguments, run the UPDATE, and answer 200 echoing the body — whether or not
any row matched; a thrown error becomes a 500 with the table unchanged. -/
def putMotorcycle (st : Store) (idp : String) (b : Bike) : UpdateResult × Store :=
  match bindBikeUpdate b with
  | none => (.serverError, st)
  | some v =>
    match runUpdate st idp v with
    | .error _ => (.serverError, st)
    | .ok (st2, _changes) => (.okEcho b, st2)

/-- DELETE FROM motorcycles WHERE id = ? : the surviving rows and
`result.changes`, the number of deleted rows. -/
def deleteWhereId (st : Store) (idp : String) : Store × Nat :=
  (st.filter (fun r => !rowMatches idp r), (st.filter (rowMatches idp)).length)

/-- Outcome of DELETE /api/motorcycles/:id: 204 empty, or 404. -/
inductive DeleteResult where
  | noContent
  | notFound
deriving DecidableEq, Repr

/-- DELETE /api/motorcycles/:id (server.ts lines 203-216): run the DELETE;
`changes > 0` answers 204, otherwise 404. -/
def deleteMotorcycle (st : Store) (idp : String) : DeleteResult × Store :=
  let res := deleteWhereId st idp
  if res.2 > 0 then (.noContent, res.1) else (.notFound, res.1)

/-- Outcome of POST /api/motorcycles/:id/delete: 200 with success true,
or 404. -/
inductive PostDeleteResult where
  | successTrue
  | notFound
deriving DecidableEq, Repr

/-- POST /api/motorcycles/:id/delete (server.ts lines 180-201): run the same
DELETE; `changes > 0` answers 200 with success true, otherwise 404. -/
def postDeleteMotorcycle (st : Store) (idp : String) : PostDeleteResult × Store :=
  let res := deleteWhereId st idp
  if res.2 > 0 then (.successTrue, res.1) else (.notFound, res.1)

/-- Did the DELETE route report success? -/
def deleteOk : DeleteResult → Bool
  | .noContent => true
  | .notFound => false

/-- Did the POST delete route report success? -/
def postDeleteOk : PostDeleteResult → Bool
  | .successTrue => true
  | .notFound => false

/-- The nested `specs` sub-object reconstituted by GET /api/motorcycles. -/
structure SpecsOut where
  engine : SqlVal
  power : SqlVal
  torque : SqlVal
  weight : SqlVal
  topSpeed : SqlVal
deriving DecidableEq, Repr

/-- One element of the GET /api/motorcycles response: the nested client
shape.  `created_at` is not part of the response. -/
structure RecordOut where
  id : SqlVal
  name : SqlVal
  category : SqlVal
  year : SqlVal
  description : SqlVal
  modifications : SqlVal
  image : SqlVal
  specs : SpecsOut
deriving DecidableEq, Repr

/-- The map in GET /api/motorcycles (server.ts lines 101-116): a flat row
back to the nested shape, with the five spec columns under `specs`. -/
def formatBike (r : Row) : RecordOut :=
  ⟨r.id, r.name, r.category, r.year, r.description, r.modifications, r.image,
   ⟨r.engine, r.power, r.torque, r.weight, r.topSpeed⟩⟩

/-- Insert one row into a list already sorted by `created_at` descending. -/
def insertByCreatedAt (r : Row) : List Row → List Row
  | [] => [r]
  | x :: xs =>
      if x.created_at ≤ r.created_at then r :: x :: xs
      else x :: insertByCreatedAt r xs

/-- ORDER BY created_at DESC (tie order is at the storage layer's
discretion; only membership matters to the claims). -/
def sortByCreatedAtDesc : List Row → List Row
  | [] => []
  | x :: xs => insertByCreatedAt x (sortByCreatedAtDesc xs)

/-- GET /api/motorcycles (server.ts lines 97-121): every row, newest first,
reconstituted into the nested shape. -/
def listAll (st : Store) : List RecordOut :=
  (sortByCreatedAtDesc st).map formatBike

/-- The body-size limit of the JSON parser the upload route actually sits
behind: express.json with limit 10mb (server.ts line 61). -/
def jsonBodyLimitBytes : Nat := 10 * 1024 * 1024

/-- The multer fileSize limit, 5 MiB (server.ts lines 31-34).  The `upload`
middleware carrying this limit is attached to no route in server.ts: it is
dead configuration, so no request is ever checked against this ceiling. -/
def multerFileSizeLimit : Nat := 5 * 1024 * 1024

/-- Outcome of POST /api/upload: 400 for a missing field, 200 with the
imageUrl and the bytes written, or the catch-all 500. -/
inductive UploadResult where
  | missingField
  | ok (imageUrl : String) (bytes : List Nat)
  | serverError
deriving DecidableEq, Repr

/-- Did the upload route answer 200? -/
def isOkUpload : UploadResult → Bool
  | .ok _ _ => true
  | _ => false

/-- JS truthiness of the body fields tested by the missing-field guard. -/
def isFalsy : JVal → Bool
  | .undef => true
  | .null => true
  | .str s => decide (s = "")
  | .int n => decide (n = 0)

/-- A regex word character as in the data-URI header pattern. -/
def isWordChar (c : Char) : Bool := c.isAlphanum || c == '_'

/-- image.replace of the anchored pattern
data colon image slash word-chars semicolon base64 comma (server.ts line 77):
strip one data-URI header when present, otherwise leave the string alone. -/
def stripDataUriHeader (s : String) : String :=
  if s.startsWith "data:image/" then
    let rest := s.drop 11
    let subtype := rest.toList.takeWhile isWordChar
    if subtype.length > 0 && (rest.drop subtype.length).startsWith ";base64," then
      (rest.drop subtype.length).drop 8
    else s
  else s

/-- Base64 alphabet value of a character (standard and URL-safe alphabets,
as Node accepts); `none` for every other character. -/
def sextetOf (c : Char) : Option Nat :=
  if 'A' ≤ c ∧ c ≤ 'Z' then some (c.toNat - 65)
  else if 'a' ≤ c ∧ c ≤ 'z' then some (c.toNat - 97 + 26)
  else if '0' ≤ c ∧ c ≤ '9' then some (c.toNat - 48 + 52)
  else if c = '+' ∨ c = '-' then some 62
  else if c = '/' ∨ c = '_' then some 63
  else none

/-- Reassemble bytes from 6-bit groups, four groups to three bytes, with a
dangling pair or triple yielding one or two bytes and a lone group dropped. -/
def decodeSextets : List Nat → List Nat
  | a :: b :: c :: d :: rest =>
      (a * 4 + b / 16) :: ((b % 16) * 16 + c / 4) :: ((c % 4) * 64 + d) ::
        decodeSextets rest
  | [a, b, c] => [a * 4 + b / 16, (b % 16) * 16 + c / 4]
  | [a, b] => [a * 4 + b / 16]
  | _ => []

/-- Buffer.from(s, base64): Node's lenient decoder never throws — characters
outside the alphabet (padding included) are skipped and the remaining 6-bit
groups are reassembled into bytes, possibly an empty buffer. -/
def decodeBase64 (s : String) : List Nat :=
  decodeSextets (s.toList.filterMap sextetOf)

/-- Node path.extname: the extension of the last path segment, from its last
dot; a dot as the segment's first character (a dotfile) and the segment
consisting of two dots give no extension. -/
def extnameOf (p : String) : String :=
  let base := (p.toList.reverse.takeWhile (fun c => !(c == '/'))).reverse
  let afterDotRev := base.reverse.takeWhile (fun c => !(c == '.'))
  if afterDotRev.length = base.length then ""
  else if base.length - afterDotRev.length - 1 = 0 then ""
  else if base = ['.', '.'] then ""
  else String.mk ('.' :: afterDotRev.reverse)

/-- The generated filename stem: Date.now() plus a hyphen plus the random
integer (server.ts line 81), both supplied as parameters. -/
def uniqueSuffix (now rand : Nat) : String :=
  toString now ++ "-" ++ toString rand

/-- POST /api/upload (server.ts lines 68-95): reject a falsy image or
fileName with 400; otherwise strip the data-URI header, decode leniently,
derive the extension (default .jpg), write the bytes and answer 200 with
the /uploads/ reference.  A non-string truthy field makes image.replace or
path.extname throw, caught as a 500.  No size check appears anywhere on
this path. -/
def postUpload (now rand : Nat) (image fileName : JVal) : UploadResult :=
  if isFalsy image || isFalsy fileName then .missingField
  else
    match image, fileName with
    | .str img, .str fn =>
        let base64Data := stripDataUriHeader img
        let buffer := decodeBase64 base64Data
        let ext := extnameOf fn
        let fileExt := if ext = "" then ".jpg" else ext
        let newFileName := uniqueSuffix now rand ++ fileExt
        .ok ("/uploads/" ++ newFileName) buffer
    | _, _ => .serverError

/-- The value a JSON value stores as, for stating expected results. -/
def jvalToSql : JVal → SqlVal
  | .undef => .null
  | .null => .null
  | .str s => .text s
  | .int n => .int n

/-- Is the value a JSON string? -/
def isStr : JVal → Bool
  | .str _ => true
  | _ => false

/-- Is the value a JSON integer? -/
def isIntVal : JVal → Bool
  | .int _ => true
  | _ => false

/-- Is the value a JSON string or an explicit JSON null? -/
def isStrOrNull : JVal → Bool
  | .str _ => true
  | .null => true
  | _ => false

/-- A well-formed `specs` sub-object: five string-or-null fields (§3 of the
data model). -/
def specsWF (sp : SpecsIn) : Bool :=
  isStrOrNull sp.engine && isStrOrNull sp.power && isStrOrNull sp.torque &&
  isStrOrNull sp.weight && isStrOrNull sp.topSpeed

/-- A valid create body: string id, name, category; integer year; the three
optional texts string-or-null; a present, well-formed `specs`. -/
def bikeWF (b : Bike) : Bool :=
  isStr b.id && isStr b.name && isStr b.category && isIntVal b.year &&
  isStrOrNull b.description && isStrOrNull b.modifications &&
  isStrOrNull b.image &&
  (match b.specs with
   | some sp => specsWF sp
   | none => false)

/-- A valid update body: like `bikeWF` but the body id is irrelevant. -/
def updWF (b : Bike) : Bool :=
  isStr b.name && isStr b.category && isIntVal b.year &&
  isStrOrNull b.description && isStrOrNull b.modifications &&
  isStrOrNull b.image &&
  (match b.specs with
   | some sp => specsWF sp
   | none => false)

/-- The nested read-back a client expects for a body it sent: every field
converted to its stored value, `specs` reconstituted. -/
def nestedOut (b : Bike) (sp : SpecsIn) : RecordOut :=
  ⟨jvalToSql b.id, jvalToSql b.name, jvalToSql b.category, jvalToSql b.year,
   jvalToSql b.description, jvalToSql b.modifications, jvalToSql b.image,
   ⟨jvalToSql sp.engine, jvalToSql sp.power, jvalToSql sp.torque,
    jvalToSql sp.weight, jvalToSql sp.topSpeed⟩⟩

/-- A sample fully-populated valid create body. -/
def sampleBike1 : Bike :=
  ⟨.str "b1", .str "Old Name", .str "Yamaha", .int 2019, .str "old desc",
   .str "exhaust, seat", .str "/uploads/a.jpg",
   some ⟨.str "e1", .str "p1", .str "t1", .str "w1", .str "s1"⟩⟩

/-- A sample valid update body that supplies every field. -/
def sampleBike2 : Bike :=
  ⟨.undef, .str "New Name", .str "Honda", .int 2022, .str "new desc",
   .str "turbo", .str "/uploads/b.jpg",
   some ⟨.str "e2", .str "p2", .str "t2", .str "w2", .str "s2"⟩⟩

/-- An update body that omits `description` (the property is absent, so the
handler binds `undefined` for it). -/
def sampleBikeOmit : Bike :=
  ⟨.undef, .str "New Name", .str "Honda", .int 2022, .undef,
   .str "turbo", .str "/uploads/b.jpg",
   some ⟨.str "e2", .str "p2", .str "t2", .str "w2", .str "s2"⟩⟩

/-- A create body whose required scalars are present but whose entire
`specs` sub-record is absent. -/
def sampleBikeNoSpecs : Bike :=
  ⟨.str "b2", .str "Name", .str "Honda", .int 2021, .null, .null, .null, none⟩

/-- A create body whose `specs` is present but whose `engine` sub-field is
absent (JS `undefined`). -/
def sampleBikeUndefEngine : Bike :=
  ⟨.str "b3", .str "Name", .str "Suzuki", .int 2020, .null, .null, .null,
   some ⟨.undef, .null, .null, .null, .null⟩⟩

/-! ## Helper lemmas -/

theorem mem_insertByCreatedAt {r a : Row} {l : List Row} :
    r ∈ insertByCreatedAt a l ↔ r = a ∨ r ∈ l := by
  induction l with
  | nil => simp [insertByCreatedAt]
  | cons x xs ih =>
      by_cases h : x.created_at ≤ a.created_at
      · simp [insertByCreatedAt, h]
      · simp [insertByCreatedAt, h, ih]
        tauto

theorem mem_sortByCreatedAtDesc {r : Row} {l : List Row} :
    r ∈ sortByCreatedAtDesc l ↔ r ∈ l := by
  induction l with
  | nil => simp [sortByCreatedAtDesc]
  | cons x xs ih =>
      simp [sortByCreatedAtDesc, mem_insertByCreatedAt, ih]

theorem any_eq_true_of_filter_len {p : Row → Bool} {l : List Row} :
    l.any p = decide (0 < (l.filter p).length) := by
  induction l with
  | nil => rfl
  | cons a t ih =>
      by_cases h : p a <;> simp [List.any_cons, List.filter_cons, h, ih]

theorem filter_not_of_any_false {p : Row → Bool} {l : List Row}
    (h : l.any p = false) : l.filter (fun r => !p r) = l := by
  induction l with
  | nil => rfl
  | cons a t ih =>
      rw [List.any_cons, Bool.or_eq_false_iff] at h
      simp [List.filter_cons, h.1, ih h.2]

theorem filter_nil_of_any_false {p : Row → Bool} {l : List Row}
    (h : l.any p = false) : l.filter p = [] := by
  induction l with
  | nil => rfl
  | cons a t ih =>
      rw [List.any_cons, Bool.or_eq_false_iff] at h
      simp [List.filter_cons, h.1, ih h.2]

theorem map_update_of_any_false {q : Row → Bool} {f : Row → Row} {l : List Row}
    (h : l.any q = false) :
    l.map (fun r => if q r then f r else r) = l := by
  induction l with
  | nil => rfl
  | cons a t ih =>
      rw [List.any_cons, Bool.or_eq_false_iff] at h
      simp [h.1, ih h.2]

theorem isStr_exists {v : JVal} (h : isStr v = true) : ∃ s, v = JVal.str s := by
  cases v <;> simp [isStr] at h ⊢

theorem isIntVal_exists {v : JVal} (h : isIntVal v = true) :
    ∃ n, v = JVal.int n := by
  cases v <;> simp [isIntVal] at h ⊢

theorem isStrOrNull_of_isStr {v : JVal} (h : isStr v = true) :
    isStrOrNull v = true := by
  cases v <;> simp [isStr, isStrOrNull] at h ⊢

theorem bindJ_strOrNull {v : JVal} (h : isStrOrNull v = true) :
    bindJ v = some (jvalToSql v) := by
  cases v <;> simp [isStrOrNull] at h <;> rfl

theorem bindJ_intVal {v : JVal} (h : isIntVal v = true) :
    bindJ v = some (jvalToSql v) := by
  cases v <;> first | rfl | simp [isIntVal] at h

theorem textAffinity_strOrNull {v : JVal} (h : isStrOrNull v = true) :
    textAffinity (jvalToSql v) = jvalToSql v := by
  cases v <;> simp [isStrOrNull] at h <;> rfl

theorem intAffinity_intVal {v : JVal} (h : isIntVal v = true) :
    intAffinity (jvalToSql v) = jvalToSql v := by
  cases v <;> first | rfl | simp [isIntVal] at h

theorem jvalToSql_str_ne_null {v : JVal} (h : isStr v = true) :
    jvalToSql v ≠ SqlVal.null := by
  obtain ⟨s, rfl⟩ := isStr_exists h
  simp [jvalToSql]

theorem jvalToSql_int_ne_null {v : JVal} (h : isIntVal v = true) :
    jvalToSql v ≠ SqlVal.null := by
  obtain ⟨n, rfl⟩ := isIntVal_exists h
  simp [jvalToSql]

/-! ## Claim theorems -/

theorem postMotorcycle_bind_none {st : Store} {now : Nat} {b : Bike}
    (h : bindBike b = none) :
    postMotorcycle st now b = (.serverError, st) := by
  unfold postMotorcycle
  rw [h]

theorem postMotorcycle_bind_some {st : Store} {now : Nat} {b : Bike}
    {v : FlatVals} (h : bindBike b = some v) :
    postMotorcycle st now b =
      match insertRow st now v with
      | Except.error _ => (CreateResult.serverError, st)
      | Except.ok st2 => (CreateResult.created b, st2) := by
  unfold postMotorcycle
  rw [h]

theorem putMotorcycle_bind_none {st : Store} {idp : String} {b : Bike}
    (h : bindBikeUpdate b = none) :
    putMotorcycle st idp b = (.serverError, st) := by
  unfold putMotorcycle
  rw [h]

theorem putMotorcycle_bind_some {st : Store} {idp : String} {b : Bike}
    {v : UpdVals} (h : bindBikeUpdate b = some v) :
    putMotorcycle st idp b =
      match runUpdate st idp v with
      | Except.error _ => (UpdateResult.serverError, st)
      | Except.ok (st2, _) => (UpdateResult.okEcho b, st2) := by
  unfold putMotorcycle
  rw [h]

theorem map_key_after_update (st : Store) (idp : String) (v : UpdVals) :
    (st.map (fun r => if rowMatches idp r then applyUpdate v r else r)).map
        (fun r => (r.id, r.created_at)) =
      st.map (fun r => (r.id, r.created_at)) := by
  induction st with
  | nil => rfl
  | cons a t ih =>
      simp only [List.map_cons, ih]
      by_cases h : rowMatches idp a
      · simp [h, applyUpdate]
      · simp [h]

/-- Claim C7: for every store, target id and request body, the update route
leaves the `id` and `created_at` columns of every row unchanged (the UPDATE
statement sets only the eleven mutable columns, and a failed update changes
nothing). -/
theorem update_preserves_id_and_created_at :
    ∀ (st : Store) (idp : String) (b : Bike),
      ((putMotorcycle st idp b).2).map (fun r => (r.id, r.created_at)) =
        st.map (fun r => (r.id, r.created_at)) := by
  intro st idp b
  cases hb : bindBikeUpdate b with
  | none => rw [putMotorcycle_bind_none hb]
  | some v =>
      rw [putMotorcycle_bind_some hb]
      cases hr : runUpdate st idp v with
      | error e => rfl
      | ok p =>
          obtain ⟨st2, ch⟩ := p
          have hst2 : st2 = st.map
              (fun r =>
                if rowMatches idp r then applyUpdate (applyAffinityU v) r
                else r) := by
            simp only [runUpdate] at hr
            split at hr
            · simp at hr
            · simp only [Except.ok.injEq, Prod.mk.injEq] at hr
              exact hr.1.symm
          simp only [hst2]
          exact map_key_after_update st idp (applyAffinityU v)

/-- Claim C8: the DELETE route reports 404 exactly when no row has the
target id, leaving the table unchanged, and reports success exactly when one
does, removing precisely the matching rows. -/
theorem delete_notfound_iff_missing :
    ∀ (st : Store) (idp : String),
      deleteMotorcycle st idp =
        if st.any (rowMatches idp) then
          (DeleteResult.noContent, st.filter (fun r => !rowMatches idp r))
        else (DeleteResult.notFound, st) := by
  intro st idp
  simp only [deleteMotorcycle, deleteWhereId]
  by_cases h : (List.filter (rowMatches idp) st).length > 0
  · have ha : st.any (rowMatches idp) = true := by
      rw [any_eq_true_of_filter_len]
      exact decide_eq_true h
    rw [ha]
    simp only [if_pos h, if_true]
  · have ha : st.any (rowMatches idp) = false := by
      rw [any_eq_true_of_filter_len]
      exact decide_eq_false h
    rw [ha]
    simp only [if_neg h, Bool.false_eq_true, if_false]
    rw [filter_not_of_any_false ha]

/-- Claim C9: the two delete routes are semantically identical — same
success/not-found report and same resulting store for every id and store,
with success holding exactly when a matching row exists. -/
theorem delete_routes_equivalent :
    ∀ (st : Store) (idp : String),
      postDeleteOk (postDeleteMotorcycle st idp).1 =
        deleteOk (deleteMotorcycle st idp).1 ∧
      (postDeleteMotorcycle st idp).2 = (deleteMotorcycle st idp).2 ∧
      deleteOk (deleteMotorcycle st idp).1 = st.any (rowMatches idp) := by
  intro st idp
  simp only [postDeleteMotorcycle, deleteMotorcycle, deleteWhereId]
  by_cases h : (List.filter (rowMatches idp) st).length > 0
  · have ha : st.any (rowMatches idp) = true := by
      rw [any_eq_true_of_filter_len]
      exact decide_eq_true h
    rw [ha]
    simp only [if_pos h]
    simp [postDeleteOk, deleteOk]
  · have ha : st.any (rowMatches idp) = false := by
      rw [any_eq_true_of_filter_len]
      exact decide_eq_false h
    rw [ha]
    simp only [if_neg h]
    simp [postDeleteOk, deleteOk]

/-- Claim C1: a valid record flattened into the twelve columns by create,
persisted, and reconstituted on read (as listAll does) reads back
field-for-field equal to the input in all twelve fields — id, name,
category, year, description, modifications, image and the five specs
sub-fields; `created_at` is server-assigned and absent from the read-back
shape. -/
theorem create_read_roundtrip :
    ∀ (st : Store) (now : Nat) (b : Bike) (sp : SpecsIn),
      b.specs = some sp →
      bikeWF b = true →
      st.any (fun r => decide (r.id = jvalToSql b.id)) = false →
      (postMotorcycle st now b).1 = CreateResult.created b ∧
      nestedOut b sp ∈ listAll (postMotorcycle st now b).2 := by
  intro st now b sp hsp hwf hfresh
  simp only [bikeWF, hsp, Bool.and_eq_true, specsWF] at hwf
  obtain ⟨⟨⟨⟨⟨⟨⟨hid, hname⟩, hcat⟩, hyear⟩, hdesc⟩, hmods⟩, himg⟩,
    ⟨⟨⟨⟨heng, hpow⟩, htor⟩, hwt⟩, hts⟩⟩ := hwf
  have e1 : bindJ b.id = some (jvalToSql b.id) :=
    bindJ_strOrNull (isStrOrNull_of_isStr hid)
  have e2 : bindJ b.name = some (jvalToSql b.name) :=
    bindJ_strOrNull (isStrOrNull_of_isStr hname)
  have e3 : bindJ b.category = some (jvalToSql b.category) :=
    bindJ_strOrNull (isStrOrNull_of_isStr hcat)
  have e4 : bindJ b.year = some (jvalToSql b.year) := bindJ_intVal hyear
  have e5 : bindJ b.description = some (jvalToSql b.description) :=
    bindJ_strOrNull hdesc
  have e6 : bindJ b.modifications = some (jvalToSql b.modifications) :=
    bindJ_strOrNull hmods
  have e7 : bindJ b.image = some (jvalToSql b.image) := bindJ_strOrNull himg
  have e8 : bindJ sp.engine = some (jvalToSql sp.engine) := bindJ_strOrNull heng
  have e9 : bindJ sp.power = some (jvalToSql sp.power) := bindJ_strOrNull hpow
  have e10 : bindJ sp.torque = some (jvalToSql sp.torque) := bindJ_strOrNull htor
  have e11 : bindJ sp.weight = some (jvalToSql sp.weight) := bindJ_strOrNull hwt
  have e12 : bindJ sp.topSpeed = some (jvalToSql sp.topSpeed) :=
    bindJ_strOrNull hts
  have hbind : bindBike b = some
      ⟨jvalToSql b.id, jvalToSql b.name, jvalToSql b.category, jvalToSql b.year,
       jvalToSql b.description, jvalToSql b.modifications, jvalToSql b.image,
       jvalToSql sp.engine, jvalToSql sp.power, jvalToSql sp.torque,
       jvalToSql sp.weight, jvalToSql sp.topSpeed⟩ := by
    simp [bindBike, Option.bind, hsp, e1, e2, e3, e4, e5, e6, e7, e8, e9, e10,
      e11, e12]
  have haff : applyAffinity
      ⟨jvalToSql b.id, jvalToSql b.name, jvalToSql b.category, jvalToSql b.year,
       jvalToSql b.description, jvalToSql b.modifications, jvalToSql b.image,
       jvalToSql sp.engine, jvalToSql sp.power, jvalToSql sp.torque,
       jvalToSql sp.weight, jvalToSql sp.topSpeed⟩ =
      ⟨jvalToSql b.id, jvalToSql b.name, jvalToSql b.category, jvalToSql b.year,
       jvalToSql b.description, jvalToSql b.modifications, jvalToSql b.image,
       jvalToSql sp.engine, jvalToSql sp.power, jvalToSql sp.torque,
       jvalToSql sp.weight, jvalToSql sp.topSpeed⟩ := by
    simp [applyAffinity, textAffinity_strOrNull (isStrOrNull_of_isStr hid),
      textAffinity_strOrNull (isStrOrNull_of_isStr hname),
      textAffinity_strOrNull (isStrOrNull_of_isStr hcat),
      intAffinity_intVal hyear, textAffinity_strOrNull hdesc,
      textAffinity_strOrNull hmods, textAffinity_strOrNull himg,
      textAffinity_strOrNull heng, textAffinity_strOrNull hpow,
      textAffinity_strOrNull htor, textAffinity_strOrNull hwt,
      textAffinity_strOrNull hts]
  have hnn : ¬(jvalToSql b.name = SqlVal.null ∨
      jvalToSql b.category = SqlVal.null ∨ jvalToSql b.year = SqlVal.null) := by
    rintro (h | h | h)
    · exact jvalToSql_str_ne_null hname h
    · exact jvalToSql_str_ne_null hcat h
    · exact jvalToSql_int_ne_null hyear h
  have hpk : ¬(jvalToSql b.id ≠ SqlVal.null ∧
      st.any (fun r => decide (r.id = jvalToSql b.id)) = true) := by
    rintro ⟨-, hx⟩
    rw [hfresh] at hx
    exact Bool.false_ne_true hx
  have hins : insertRow st now
      ⟨jvalToSql b.id, jvalToSql b.name, jvalToSql b.category, jvalToSql b.year,
       jvalToSql b.description, jvalToSql b.modifications, jvalToSql b.image,
       jvalToSql sp.engine, jvalToSql sp.power, jvalToSql sp.torque,
       jvalToSql sp.weight, jvalToSql sp.topSpeed⟩ =
      .ok (st ++ [rowOf
        ⟨jvalToSql b.id, jvalToSql b.name, jvalToSql b.category, jvalToSql b.year,
         jvalToSql b.description, jvalToSql b.modifications, jvalToSql b.image,
         jvalToSql sp.engine, jvalToSql sp.power, jvalToSql sp.torque,
         jvalToSql sp.weight, jvalToSql sp.topSpeed⟩ now]) := by
    simp only [insertRow]
    rw [haff]
    rw [if_neg hnn, if_neg hpk]
  rw [postMotorcycle_bind_some hbind, hins]
  refine ⟨rfl, ?_⟩
  unfold listAll
  refine List.mem_map.mpr
    ⟨rowOf
      ⟨jvalToSql b.id, jvalToSql b.name, jvalToSql b.category, jvalToSql b.year,
       jvalToSql b.description, jvalToSql b.modifications, jvalToSql b.image,
       jvalToSql sp.engine, jvalToSql sp.power, jvalToSql sp.torque,
       jvalToSql sp.weight, jvalToSql sp.topSpeed⟩ now,
     mem_sortByCreatedAtDesc.mpr (by simp), rfl⟩

/-- Claim C1 witness: a concrete valid record round-trips through create and
listAll. -/
theorem create_read_roundtrip_witness :
    sampleBike1.specs =
        some ⟨.str "e1", .str "p1", .str "t1", .str "w1", .str "s1"⟩ ∧
    bikeWF sampleBike1 = true ∧
    ([] : Store).any (fun r => decide (r.id = jvalToSql sampleBike1.id)) = false ∧
    ((postMotorcycle [] 7 sampleBike1).1 = CreateResult.created sampleBike1 ∧
      nestedOut sampleBike1 ⟨.str "e1", .str "p1", .str "t1", .str "w1", .str "s1"⟩ ∈
        listAll (postMotorcycle [] 7 sampleBike1).2) :=
  ⟨rfl, by decide, rfl,
    create_read_roundtrip [] 7 sampleBike1 _ rfl (by decide) rfl⟩

/-- Claim C2: creating a record whose id already exists in the store fails —
the INSERT is rejected by the primary-key constraint and surfaces as the
route's error response — and the store, hence the existing row, is left
unmodified in every field. -/
theorem create_duplicate_id_conflict :
    ∀ (st : Store) (now : Nat) (b : Bike) (x : String),
      bikeWF b = true →
      b.id = JVal.str x →
      st.any (fun r => decide (r.id = SqlVal.text x)) = true →
      postMotorcycle st now b = (CreateResult.serverError, st) ∧
      (bindBike b).map (fun v => insertRow st now v) =
        some (Except.error SqlErr.primaryKeyViolation) := by
  intro st now b x hwf hid hdup
  obtain ⟨sp, hsp⟩ : ∃ sp, b.specs = some sp := by
    revert hwf
    unfold bikeWF
    cases b.specs with
    | none => simp
    | some sp => exact fun _ => ⟨sp, rfl⟩
  simp only [bikeWF, hsp, Bool.and_eq_true, specsWF] at hwf
  obtain ⟨⟨⟨⟨⟨⟨⟨hid2, hname⟩, hcat⟩, hyear⟩, hdesc⟩, hmods⟩, himg⟩,
    ⟨⟨⟨⟨heng, hpow⟩, htor⟩, hwt⟩, hts⟩⟩ := hwf
  have e1 : bindJ b.id = some (jvalToSql b.id) :=
    bindJ_strOrNull (isStrOrNull_of_isStr hid2)
  have e2 : bindJ b.name = some (jvalToSql b.name) :=
    bindJ_strOrNull (isStrOrNull_of_isStr hname)
  have e3 : bindJ b.category = some (jvalToSql b.category) :=
    bindJ_strOrNull (isStrOrNull_of_isStr hcat)
  have e4 : bindJ b.year = some (jvalToSql b.year) := bindJ_intVal hyear
  have e5 : bindJ b.description = some (jvalToSql b.description) :=
    bindJ_strOrNull hdesc
  have e6 : bindJ b.modifications = some (jvalToSql b.modifications) :=
    bindJ_strOrNull hmods
  have e7 : bindJ b.image = some (jvalToSql b.image) := bindJ_strOrNull himg
  have e8 : bindJ sp.engine = some (jvalToSql sp.engine) := bindJ_strOrNull heng
  have e9 : bindJ sp.power = some (jvalToSql sp.power) := bindJ_strOrNull hpow
  have e10 : bindJ sp.torque = some (jvalToSql sp.torque) := bindJ_strOrNull htor
  have e11 : bindJ sp.weight = some (jvalToSql sp.weight) := bindJ_strOrNull hwt
  have e12 : bindJ sp.topSpeed = some (jvalToSql sp.topSpeed) :=
    bindJ_strOrNull hts
  have hbind : bindBike b = some
      ⟨jvalToSql b.id, jvalToSql b.name, jvalToSql b.category, jvalToSql b.year,
       jvalToSql b.description, jvalToSql b.modifications, jvalToSql b.image,
       jvalToSql sp.engine, jvalToSql sp.power, jvalToSql sp.torque,
       jvalToSql sp.weight, jvalToSql sp.topSpeed⟩ := by
    simp [bindBike, Option.bind, hsp, e1, e2, e3, e4, e5, e6, e7, e8, e9, e10,
      e11, e12]
  have haff : applyAffinity
      ⟨jvalToSql b.id, jvalToSql b.name, jvalToSql b.category, jvalToSql b.year,
       jvalToSql b.description, jvalToSql b.modifications, jvalToSql b.image,
       jvalToSql sp.engine, jvalToSql sp.power, jvalToSql sp.torque,
       jvalToSql sp.weight, jvalToSql sp.topSpeed⟩ =
      ⟨jvalToSql b.id, jvalToSql b.name, jvalToSql b.category, jvalToSql b.year,
       jvalToSql b.description, jvalToSql b.modifications, jvalToSql b.image,
       jvalToSql sp.engine, jvalToSql sp.power, jvalToSql sp.torque,
       jvalToSql sp.weight, jvalToSql sp.topSpeed⟩ := by
    simp [applyAffinity, textAffinity_strOrNull (isStrOrNull_of_isStr hid2),
      textAffinity_strOrNull (isStrOrNull_of_isStr hname),
      textAffinity_strOrNull (isStrOrNull_of_isStr hcat),
      intAffinity_intVal hyear, textAffinity_strOrNull hdesc,
      textAffinity_strOrNull hmods, textAffinity_strOrNull himg,
      textAffinity_strOrNull heng, textAffinity_strOrNull hpow,
      textAffinity_strOrNull htor, textAffinity_strOrNull hwt,
      textAffinity_strOrNull hts]
  have hnn : ¬(jvalToSql b.name = SqlVal.null ∨
      jvalToSql b.category = SqlVal.null ∨ jvalToSql b.year = SqlVal.null) := by
    rintro (h | h | h)
    · exact jvalToSql_str_ne_null hname h
    · exact jvalToSql_str_ne_null hcat h
    · exact jvalToSql_int_ne_null hyear h
  have hdup2 : st.any (fun r => decide (r.id = jvalToSql b.id)) = true := by
    rw [hid]
    exact hdup
  have hpk : jvalToSql b.id ≠ SqlVal.null ∧
      st.any (fun r => decide (r.id = jvalToSql b.id)) = true := by
    refine ⟨?_, hdup2⟩
    rw [hid]
    simp [jvalToSql]
  have hins : insertRow st now
      ⟨jvalToSql b.id, jvalToSql b.name, jvalToSql b.category, jvalToSql b.year,
       jvalToSql b.description, jvalToSql b.modifications, jvalToSql b.image,
       jvalToSql sp.engine, jvalToSql sp.power, jvalToSql sp.torque,
       jvalToSql sp.weight, jvalToSql sp.topSpeed⟩ =
      .error .primaryKeyViolation := by
    simp only [insertRow]
    rw [haff]
    rw [if_neg hnn, if_pos hpk]
  constructor
  · rw [postMotorcycle_bind_some hbind, hins]
  · rw [hbind]
    simp [hins]

/-- Claim C2 witness: a concrete duplicate-id create is rejected by the
primary-key constraint and leaves the store unchanged. -/
theorem create_duplicate_id_conflict_witness :
    bikeWF sampleBike1 = true ∧
    sampleBike1.id = JVal.str "b1" ∧
    ((postMotorcycle [] 3 sampleBike1).2).any
        (fun r => decide (r.id = SqlVal.text "b1")) = true ∧
    (postMotorcycle ((postMotorcycle [] 3 sampleBike1).2) 4 sampleBike1 =
        (CreateResult.serverError, (postMotorcycle [] 3 sampleBike1).2) ∧
      (bindBike sampleBike1).map
          (fun v => insertRow ((postMotorcycle [] 3 sampleBike1).2) 4 v) =
        some (Except.error SqlErr.primaryKeyViolation)) :=
  ⟨by decide, rfl, by decide,
    create_duplicate_id_conflict ((postMotorcycle [] 3 sampleBike1).2) 4
      sampleBike1 "b1" (by decide) rfl (by decide)⟩

/-- Claim C3 counterexample: updating an id that is not in the store does
not fail — on the empty store, a valid update body for the missing id
"missing" is answered with the success response echoing the body (the
handler never inspects result.changes), so no NotFound condition is
reported. -/
theorem update_missing_id_cex :
    putMotorcycle ([] : Store) "missing" sampleBike2 =
      (UpdateResult.okEcho sampleBike2, ([] : Store)) := by decide

/-- Claim C3 (amended): for every id not present in the store, an update
whose body binds successfully succeeds with 200 echoing the body and leaves
the store unchanged — indistinguishable by the caller from an update that
matched a row. -/
theorem update_missing_id_succeeds :
    ∀ (st : Store) (idp : String) (b : Bike),
      st.any (rowMatches idp) = false →
      (bindBikeUpdate b).isSome = true →
      putMotorcycle st idp b = (UpdateResult.okEcho b, st) := by
  intro st idp b hmiss hbind
  obtain ⟨v, hv⟩ := Option.isSome_iff_exists.mp hbind
  rw [putMotorcycle_bind_some hv]
  have hcond : ¬(((applyAffinityU v).name = SqlVal.null ∨
      (applyAffinityU v).category = SqlVal.null ∨
      (applyAffinityU v).year = SqlVal.null) ∧
      st.any (rowMatches idp) = true) := by
    rintro ⟨-, hx⟩
    rw [hmiss] at hx
    exact Bool.false_ne_true hx
  have hrun : runUpdate st idp v = .ok (st, 0) := by
    simp only [runUpdate]
    rw [if_neg hcond, map_update_of_any_false hmiss,
      filter_nil_of_any_false hmiss]
    rfl
  rw [hrun]

/-- Claim C3 witness: a concrete update of a missing id on the empty store
answers success with the store unchanged. -/
theorem update_missing_id_succeeds_witness :
    (([] : Store).any (rowMatches "zzz") = false) ∧
    (bindBikeUpdate sampleBike2).isSome = true ∧
    putMotorcycle ([] : Store) "zzz" sampleBike2 =
      (UpdateResult.okEcho sampleBike2, ([] : Store)) :=
  ⟨rfl, by decide, update_missing_id_succeeds [] "zzz" sampleBike2 rfl (by decide)⟩

/-- Claim C5 counterexample: a create body with all required scalars present
but `specs` absent is rejected with the generic 500 and nothing is stored
(the handler throws dereferencing bike.specs.engine); likewise a body whose
`specs` is present but whose `engine` sub-field is absent (better-sqlite3
refuses the `undefined` binding).  The claim said both creates succeed with
the absent fields stored as null. -/
theorem create_absent_specs_cex :
    isStr sampleBikeNoSpecs.id = true ∧
    isStr sampleBikeNoSpecs.name = true ∧
    isStr sampleBikeNoSpecs.category = true ∧
    isIntVal sampleBikeNoSpecs.year = true ∧
    sampleBikeNoSpecs.specs = none ∧
    postMotorcycle ([] : Store) 5 sampleBikeNoSpecs =
      (CreateResult.serverError, ([] : Store)) ∧
    postMotorcycle ([] : Store) 5 sampleBikeUndefEngine =
      (CreateResult.serverError, ([] : Store)) := by decide

/-- Claim C5 (amended): a create whose entire `specs` sub-record is absent
fails with the generic 500 and stores nothing, whatever the other fields
are; spec sub-fields persist as null only when the client sends explicit
JSON nulls. -/
theorem create_absent_specs_fails :
    ∀ (st : Store) (now : Nat) (b : Bike),
      b.specs = none →
      postMotorcycle st now b = (CreateResult.serverError, st) := by
  intro st now b h
  have hb : bindBike b = none := by
    simp [bindBike, h, Option.bind]
  rw [postMotorcycle_bind_none hb]

/-- Claim C5 witness: the concrete specs-less create fails with the store
unchanged. -/
theorem create_absent_specs_fails_witness :
    sampleBikeNoSpecs.specs = none ∧
    postMotorcycle ([] : Store) 9 sampleBikeNoSpecs =
      (CreateResult.serverError, ([] : Store)) :=
  ⟨rfl, create_absent_specs_fails [] 9 sampleBikeNoSpecs rfl⟩

/-- Claim C6 counterexample: create "b1" from a full record, then update it
with a body that omits `description` — the update fails with 500, and a
subsequent listAll still returns the ORIGINAL description ("old desc", not
null) and the ORIGINAL name ("Old Name", though the update supplied
"New Name"). The claim said omitted fields are written as null and none of
the old values survive. -/
theorem update_omitted_field_cex :
    sampleBikeOmit.description = JVal.undef ∧
    putMotorcycle ((postMotorcycle ([] : Store) 0 sampleBike1).2) "b1"
        sampleBikeOmit =
      (UpdateResult.serverError, (postMotorcycle ([] : Store) 0 sampleBike1).2) ∧
    (listAll (putMotorcycle ((postMotorcycle ([] : Store) 0 sampleBike1).2) "b1"
        sampleBikeOmit).2).map RecordOut.description =
      [SqlVal.text "old desc"] ∧
    (listAll (putMotorcycle ((postMotorcycle ([] : Store) 0 sampleBike1).2) "b1"
        sampleBikeOmit).2).map RecordOut.name =
      [SqlVal.text "Old Name"] := by decide

/-- Claim C6 (amended): after create(x, r1) and update(x, r2) where r2
supplies every mutable field and spec sub-field (explicit null allowed for
the optional ones), the store read back through the listAll mapping is the
untouched prior rows plus the x-row carrying exactly r2's values — full
replacement, nothing of r1 surviving.  When r2 omits a field the update
instead fails whole, leaving r1's row entirely intact. -/
theorem update_full_replacement :
    ∀ (st0 : Store) (now : Nat) (x : String) (r1 r2 : Bike) (sp2 : SpecsIn),
      bikeWF r1 = true →
      r1.id = JVal.str x →
      st0.any (fun r => decide (r.id = SqlVal.text x)) = false →
      updWF r2 = true →
      r2.specs = some sp2 →
      (putMotorcycle (postMotorcycle st0 now r1).2 x r2).1 =
        UpdateResult.okEcho r2 ∧
      ((putMotorcycle (postMotorcycle st0 now r1).2 x r2).2).map formatBike =
        st0.map formatBike ++ [{ nestedOut r2 sp2 with id := SqlVal.text x }] := by
  intro st0 now x r1 r2 sp2 hwf1 hid1 hfresh hwf2 hsp2
  obtain ⟨sp1, hsp1⟩ : ∃ sp, r1.specs = some sp := by
    revert hwf1
    unfold bikeWF
    cases r1.specs with
    | none => simp
    | some sp => exact fun _ => ⟨sp, rfl⟩
  simp only [bikeWF, hsp1, Bool.and_eq_true, specsWF] at hwf1
  obtain ⟨⟨⟨⟨⟨⟨⟨hid, hname⟩, hcat⟩, hyear⟩, hdesc⟩, hmods⟩, himg⟩,
    ⟨⟨⟨⟨heng, hpow⟩, htor⟩, hwt⟩, hts⟩⟩ := hwf1
  simp only [updWF, hsp2, Bool.and_eq_true, specsWF] at hwf2
  obtain ⟨⟨⟨⟨⟨⟨gname, gcat⟩, gyear⟩, gdesc⟩, gmods⟩, gimg⟩,
    ⟨⟨⟨⟨geng, gpow⟩, gtor⟩, gwt⟩, gts⟩⟩ := hwf2
  -- the create of r1 appends one row with id x
  have hbind1 : bindBike r1 = some
      ⟨jvalToSql r1.id, jvalToSql r1.name, jvalToSql r1.category,
       jvalToSql r1.year, jvalToSql r1.description, jvalToSql r1.modifications,
       jvalToSql r1.image, jvalToSql sp1.engine, jvalToSql sp1.power,
       jvalToSql sp1.torque, jvalToSql sp1.weight, jvalToSql sp1.topSpeed⟩ := by
    simp [bindBike, Option.bind, hsp1,
      bindJ_strOrNull (isStrOrNull_of_isStr hid),
      bindJ_strOrNull (isStrOrNull_of_isStr hname),
      bindJ_strOrNull (isStrOrNull_of_isStr hcat), bindJ_intVal hyear,
      bindJ_strOrNull hdesc, bindJ_strOrNull hmods, bindJ_strOrNull himg,
      bindJ_strOrNull heng, bindJ_strOrNull hpow, bindJ_strOrNull htor,
      bindJ_strOrNull hwt, bindJ_strOrNull hts]
  have haff1 : applyAffinity
      ⟨jvalToSql r1.id, jvalToSql r1.name, jvalToSql r1.category,
       jvalToSql r1.year, jvalToSql r1.description, jvalToSql r1.modifications,
       jvalToSql r1.image, jvalToSql sp1.engine, jvalToSql sp1.power,
       jvalToSql sp1.torque, jvalToSql sp1.weight, jvalToSql sp1.topSpeed⟩ =
      ⟨jvalToSql r1.id, jvalToSql r1.name, jvalToSql r1.category,
       jvalToSql r1.year, jvalToSql r1.description, jvalToSql r1.modifications,
       jvalToSql r1.image, jvalToSql sp1.engine, jvalToSql sp1.power,
       jvalToSql sp1.torque, jvalToSql sp1.weight, jvalToSql sp1.topSpeed⟩ := by
    simp [applyAffinity, textAffinity_strOrNull (isStrOrNull_of_isStr hid),
      textAffinity_strOrNull (isStrOrNull_of_isStr hname),
      textAffinity_strOrNull (isStrOrNull_of_isStr hcat),
      intAffinity_intVal hyear, textAffinity_strOrNull hdesc,
      textAffinity_strOrNull hmods, textAffinity_strOrNull himg,
      textAffinity_strOrNull heng, textAffinity_strOrNull hpow,
      textAffinity_strOrNull htor, textAffinity_strOrNull hwt,
      textAffinity_strOrNull hts]
  have hnn1 : ¬(jvalToSql r1.name = SqlVal.null ∨
      jvalToSql r1.category = SqlVal.null ∨
      jvalToSql r1.year = SqlVal.null) := by
    rintro (h | h | h)
    · exact jvalToSql_str_ne_null hname h
    · exact jvalToSql_str_ne_null hcat h
    · exact jvalToSql_int_ne_null hyear h
  have hpk1 : ¬(jvalToSql r1.id ≠ SqlVal.null ∧
      st0.any (fun r => decide (r.id = jvalToSql r1.id)) = true) := by
    rintro ⟨-, hx⟩
    rw [hid1] at hx
    simp only [jvalToSql] at hx
    rw [hfresh] at hx
    exact Bool.false_ne_true hx
  have hins1 : insertRow st0 now
      ⟨jvalToSql r1.id, jvalToSql r1.name, jvalToSql r1.category,
       jvalToSql r1.year, jvalToSql r1.description, jvalToSql r1.modifications,
       jvalToSql r1.image, jvalToSql sp1.engine, jvalToSql sp1.power,
       jvalToSql sp1.torque, jvalToSql sp1.weight, jvalToSql sp1.topSpeed⟩ =
      .ok (st0 ++ [rowOf
        ⟨jvalToSql r1.id, jvalToSql r1.name, jvalToSql r1.category,
         jvalToSql r1.year, jvalToSql r1.description, jvalToSql r1.modifications,
         jvalToSql r1.image, jvalToSql sp1.engine, jvalToSql sp1.power,
         jvalToSql sp1.torque, jvalToSql sp1.weight, jvalToSql sp1.topSpeed⟩
        now]) := by
    simp only [insertRow]
    rw [haff1]
    rw [if_neg hnn1, if_neg hpk1]
  have hst1 : (postMotorcycle st0 now r1).2 = st0 ++ [rowOf
      ⟨jvalToSql r1.id, jvalToSql r1.name, jvalToSql r1.category,
       jvalToSql r1.year, jvalToSql r1.description, jvalToSql r1.modifications,
       jvalToSql r1.image, jvalToSql sp1.engine, jvalToSql sp1.power,
       jvalToSql sp1.torque, jvalToSql sp1.weight, jvalToSql sp1.topSpeed⟩
      now] := by
    rw [postMotorcycle_bind_some hbind1, hins1]
  -- the update of r2 binds and succeeds
  have hbind2 : bindBikeUpdate r2 = some
      ⟨jvalToSql r2.name, jvalToSql r2.category, jvalToSql r2.year,
       jvalToSql r2.description, jvalToSql r2.modifications, jvalToSql r2.image,
       jvalToSql sp2.engine, jvalToSql sp2.power, jvalToSql sp2.torque,
       jvalToSql sp2.weight, jvalToSql sp2.topSpeed⟩ := by
    simp [bindBikeUpdate, Option.bind, hsp2,
      bindJ_strOrNull (isStrOrNull_of_isStr gname),
      bindJ_strOrNull (isStrOrNull_of_isStr gcat), bindJ_intVal gyear,
      bindJ_strOrNull gdesc, bindJ_strOrNull gmods, bindJ_strOrNull gimg,
      bindJ_strOrNull geng, bindJ_strOrNull gpow, bindJ_strOrNull gtor,
      bindJ_strOrNull gwt, bindJ_strOrNull gts]
  have haff2 : applyAffinityU
      ⟨jvalToSql r2.name, jvalToSql r2.category, jvalToSql r2.year,
       jvalToSql r2.description, jvalToSql r2.modifications, jvalToSql r2.image,
       jvalToSql sp2.engine, jvalToSql sp2.power, jvalToSql sp2.torque,
       jvalToSql sp2.weight, jvalToSql sp2.topSpeed⟩ =
      ⟨jvalToSql r2.name, jvalToSql r2.category, jvalToSql r2.year,
       jvalToSql r2.description, jvalToSql r2.modifications, jvalToSql r2.image,
       jvalToSql sp2.engine, jvalToSql sp2.power, jvalToSql sp2.torque,
       jvalToSql sp2.weight, jvalToSql sp2.topSpeed⟩ := by
    simp [applyAffinityU, textAffinity_strOrNull (isStrOrNull_of_isStr gname),
      textAffinity_strOrNull (isStrOrNull_of_isStr gcat),
      intAffinity_intVal gyear, textAffinity_strOrNull gdesc,
      textAffinity_strOrNull gmods, textAffinity_strOrNull gimg,
      textAffinity_strOrNull geng, textAffinity_strOrNull gpow,
      textAffinity_strOrNull gtor, textAffinity_strOrNull gwt,
      textAffinity_strOrNull gts]
  set row1 : Row := rowOf
      ⟨jvalToSql r1.id, jvalToSql r1.name, jvalToSql r1.category,
       jvalToSql r1.year, jvalToSql r1.description, jvalToSql r1.modifications,
       jvalToSql r1.image, jvalToSql sp1.engine, jvalToSql sp1.power,
       jvalToSql sp1.torque, jvalToSql sp1.weight, jvalToSql sp1.topSpeed⟩
      now with hrow1
  set v2 : UpdVals :=
      ⟨jvalToSql r2.name, jvalToSql r2.category, jvalToSql r2.year,
       jvalToSql r2.description, jvalToSql r2.modifications, jvalToSql r2.image,
       jvalToSql sp2.engine, jvalToSql sp2.power, jvalToSql sp2.torque,
       jvalToSql sp2.weight, jvalToSql sp2.topSpeed⟩ with hv2
  have hmatch1 : rowMatches x row1 = true := by
    simp [rowMatches, hrow1, rowOf, hid1, jvalToSql]
  have hcond2 : ¬(((applyAffinityU v2).name = SqlVal.null ∨
      (applyAffinityU v2).category = SqlVal.null ∨
      (applyAffinityU v2).year = SqlVal.null) ∧
      (st0 ++ [row1]).any (rowMatches x) = true) := by
    rw [haff2]
    rintro ⟨(h | h | h), -⟩
    · exact jvalToSql_str_ne_null gname h
    · exact jvalToSql_str_ne_null gcat h
    · exact jvalToSql_int_ne_null gyear h
  have hmiss0 : st0.any (rowMatches x) = false := hfresh
  have hrun2 : runUpdate (st0 ++ [row1]) x v2 =
      .ok (st0 ++ [applyUpdate v2 row1],
        ((st0 ++ [row1]).filter (rowMatches x)).length) := by
    simp only [runUpdate]
    rw [if_neg hcond2, haff2]
    rw [List.map_append, map_update_of_any_false hmiss0]
    simp [hmatch1]
  refine ?_
  rw [hst1, putMotorcycle_bind_some hbind2, hrun2]
  refine ⟨rfl, ?_⟩
  rw [List.map_append]
  refine congrArg (st0.map formatBike ++ ·) ?_
  simp only [List.map_cons, List.map_nil]
  refine congrArg (fun z => [z]) ?_
  simp [formatBike, applyUpdate, hrow1, rowOf, nestedOut, hid1, jvalToSql]

/-- Claim C6 witness: a concrete create of "b1" followed by a
fully-supplied update reads back exactly the new values. -/
theorem update_full_replacement_witness :
    bikeWF sampleBike1 = true ∧
    sampleBike1.id = JVal.str "b1" ∧
    ([] : Store).any (fun r => decide (r.id = SqlVal.text "b1")) = false ∧
    updWF sampleBike2 = true ∧
    sampleBike2.specs =
      some ⟨.str "e2", .str "p2", .str "t2", .str "w2", .str "s2"⟩ ∧
    ((putMotorcycle (postMotorcycle ([] : Store) 0 sampleBike1).2 "b1"
        sampleBike2).1 = UpdateResult.okEcho sampleBike2 ∧
      ((putMotorcycle (postMotorcycle ([] : Store) 0 sampleBike1).2 "b1"
          sampleBike2).2).map formatBike =
        ([] : Store).map formatBike ++
          [{ nestedOut sampleBike2
              ⟨.str "e2", .str "p2", .str "t2", .str "w2", .str "s2"⟩ with
            id := SqlVal.text "b1" }]) :=
  ⟨by decide, rfl, rfl, by decide, rfl,
    update_full_replacement [] 0 "b1" sampleBike1 sampleBike2 _
      (by decide) rfl rfl (by decide) rfl⟩

/-- Claim C4 (code situation): the inline upload route never rejects a
payload for its size — for every non-empty image and fileName, of any
length whatsoever (in particular of decoded size beyond
`multerFileSizeLimit`), the route answers 200.  The multer middleware
carrying the 5 MiB fileSize limit is mounted on no route, so the claimed
PayloadTooLarge rejection one byte over the ceiling cannot occur. -/
theorem upload_no_size_rejection :
    ∀ (now rand : Nat) (img fn : String),
      img ≠ "" → fn ≠ "" →
      isOkUpload (postUpload now rand (JVal.str img) (JVal.str fn)) = true := by
  intro now rand img fn h1 h2
  simp [postUpload, isFalsy, decide_eq_false h1, decide_eq_false h2, isOkUpload]

/-- Claim C4 witness: a concrete inline upload is accepted. -/
theorem upload_no_size_rejection_witness :
    ("AAAA" : String) ≠ "" ∧ ("x" : String) ≠ "" ∧
    isOkUpload (postUpload 1 2 (JVal.str "AAAA") (JVal.str "x")) = true :=
  ⟨by decide, by decide,
    upload_no_size_rejection 1 2 "AAAA" "x" (by decide) (by decide)⟩

/-- Claim C10: for every inline upload whose image and fileName are
non-empty strings, the route never rejects the payload as malformed
base64 — the data-URI strip and the lenient decode always produce some byte
buffer, the file is written, and the answer is 200 with an imageUrl of the
form /uploads/ followed by the generated filename. -/
theorem upload_lenient_decode_succeeds :
    ∀ (now rand : Nat) (img fn : String),
      img ≠ "" → fn ≠ "" →
      postUpload now rand (JVal.str img) (JVal.str fn) =
        UploadResult.ok
          ("/uploads/" ++ (uniqueSuffix now rand ++
            (if extnameOf fn = "" then ".jpg" else extnameOf fn)))
          (decodeBase64 (stripDataUriHeader img)) := by
  intro now rand img fn h1 h2
  simp [postUpload, isFalsy, decide_eq_false h1, decide_eq_false h2]

/-- Claim C10 witness: a concrete upload whose image is not valid base64 is
still written and answered 200 with a /uploads/ reference. -/
theorem upload_lenient_decode_succeeds_witness :
    ("%%%not-base64%%%" : String) ≠ "" ∧ ("pic.png" : String) ≠ "" ∧
    postUpload 7 9 (JVal.str "%%%not-base64%%%") (JVal.str "pic.png") =
      UploadResult.ok
        ("/uploads/" ++ (uniqueSuffix 7 9 ++
          (if extnameOf "pic.png" = "" then ".jpg" else extnameOf "pic.png")))
        (decodeBase64 (stripDataUriHeader "%%%not-base64%%%")) :=
  ⟨by decide, by decide,
    upload_lenient_decode_succeeds 7 9 "%%%not-base64%%%" "pic.png"
      (by decide) (by decide)⟩

end HomeGarage
